import Mathlib

/-!
Verification of the finger-vein check-in kiosk: packet codec, transport
receive path, enroll/identify handshake loops, poller debouncing and lock
discipline, and the kiosk code-entry state machine.

The definitions below are shallow embeddings of the Python sources in
`folder-Fingerprint_Project/` (`fingerprint_sensor.py`, `Finger_code_reader.py`,
`Main_main.py`, `Final_Code.py`).  Machine integers are modelled as `Nat` with
explicit `% 2^w` where the source masks (`& 0xFF` becomes `% 256`,
`>> 8` becomes `/ 256`); bitwise `|` and `<<` are kept as `|||` / `<<<`.
-/

namespace Checkin

/-! ### Constants (fingerprint_sensor.py, lines 6-21) -/

def PREFIX_CODE : Nat := 0xAABB
def XG_ERR_SUCCESS : Nat := 0x00
def XG_ERR_DATA : Nat := 0x03
def XG_ERR_TIME_OUT : Nat := 0x0B
def XG_ERR_COM : Nat := 0x02
def XG_INPUT_FINGER : Nat := 0x20
def XG_RELEASE_FINGER : Nat := 0x21
def XG_ERR_NO_VEIN : Nat := 0x11

/-! ### Transport receive path (`FingerVeinSensor._recv_packet`, lines 114-141)

`_recv_packet` polls the serial port; within one call it either obtains a
complete 24-byte frame, runs out of time, or hits an I/O exception.  The three
possibilities are the constructors of `RecvInput`. -/

inductive RecvInput where
  | frame (bs : List Nat)
  | timedOut
  | ioError

/-- The checksum `_recv_packet` recomputes (lines 127-130): sum of the first 22
received bytes, masked with `0xFFFF` (i.e. `% 2^16`). -/
def recvChecksum (bs : List Nat) : Nat := (bs.take 22).sum % 65536

/-- The checksum carried in the frame, as `_parse_rsp` reads it (line 112):
`rsp[22] | (rsp[23] << 8)`. -/
def carriedChecksum (bs : List Nat) : Nat := bs.getD 22 0 ||| (bs.getD 23 0 <<< 8)

/-- Return code of `_recv_packet` (lines 114-141): on a complete frame, 0 on
checksum match and `XG_ERR_DATA` on mismatch; `XG_ERR_TIME_OUT` when no
complete frame arrived in time; `XG_ERR_COM` on an I/O exception. -/
def recvPacket : RecvInput → Nat
  | .frame bs => if recvChecksum bs = carriedChecksum bs then XG_ERR_SUCCESS else XG_ERR_DATA
  | .timedOut => XG_ERR_TIME_OUT
  | .ioError => XG_ERR_COM

/-! ### Little-endian helper -/

/-- For a low byte `a < 256`, the bit-or of `a` with a shifted high part is
plain little-endian addition. -/
theorem lor_shift8 (a b : Nat) (ha : a < 256) : a ||| b <<< 8 = a + 256 * b := by
  have h8 : a < 2 ^ 8 := by norm_num; exact ha
  calc a ||| b <<< 8 = b <<< 8 ||| a := Nat.lor_comm _ _
    _ = 2 ^ 8 * b ||| a := by rw [Nat.shiftLeft_eq, Nat.mul_comm]
    _ = 2 ^ 8 * b + a := (Nat.mul_add_lt_is_or h8 b).symm
    _ = a + 256 * b := by norm_num [Nat.add_comm]

/-- C1: a received 24-byte frame is accepted (code 0) iff the sum of its first
22 bytes truncated to 16 bits equals the checksum carried little-endian in
bytes 22-23; a mismatching frame yields the data-error code 0x03, which is
distinct from the timeout code 0x0B (no complete frame in time) and the
comm-error code 0x02 (I/O exception). -/
theorem recv_spec (bs : List Nat) (h24 : bs.length = 24) (hb : ∀ b ∈ bs, b < 256) :
    (recvPacket (.frame bs) = XG_ERR_SUCCESS ↔
      (bs.take 22).sum % 65536 = bs.getD 22 0 + 256 * bs.getD 23 0) ∧
    ((bs.take 22).sum % 65536 ≠ bs.getD 22 0 + 256 * bs.getD 23 0 →
      recvPacket (.frame bs) = XG_ERR_DATA) ∧
    recvPacket .timedOut = XG_ERR_TIME_OUT ∧
    recvPacket .ioError = XG_ERR_COM ∧
    XG_ERR_DATA ≠ XG_ERR_SUCCESS ∧ XG_ERR_DATA ≠ XG_ERR_TIME_OUT ∧
    XG_ERR_DATA ≠ XG_ERR_COM ∧ XG_ERR_TIME_OUT ≠ XG_ERR_COM := by
  have h22 : bs.getD 22 0 < 256 := by
    have hm : bs.getD 22 0 ∈ bs := by
      rw [List.getD_eq_getElem bs 0 (by omega)]
      exact List.getElem_mem _
    exact hb _ hm
  have hcar : carriedChecksum bs = bs.getD 22 0 + 256 * bs.getD 23 0 :=
    lor_shift8 _ _ h22
  refine ⟨?_, ?_, rfl, rfl, by decide, by decide, by decide, by decide⟩
  · rw [recvPacket, recvChecksum, hcar]
    constructor
    · intro h
      by_contra hne
      rw [if_neg hne] at h
      exact absurd h (by decide)
    · intro h; rw [if_pos h]
  · intro hne
    rw [recvPacket, recvChecksum, hcar, if_neg hne]

/-- Witness for `recv_spec` at the all-zero 24-byte frame (checksum 0 matches). -/
theorem recv_spec_witness :
    recvPacket (.frame (List.replicate 24 0)) = XG_ERR_SUCCESS :=
  ((recv_spec (List.replicate 24 0) (by decide) (by decide)).1).mpr (by decide)

/-! ### Encoder (`FingerVeinSensor._build_and_send`, lines 77-101)

A fresh `CmdPacket` has `bEncode = 0` and `bData` zero-initialised (lines
26-34); callers write the payload into a prefix of `bData`, so the 16-byte
data region is the payload zero-padded on the right. -/

/-- The 16-byte `bData` region: payload zero-padded to 16 bytes. -/
def padPayload (p : List Nat) : List Nat := p ++ List.replicate (16 - p.length) 0

/-- `_build_and_send` lines 80-94: the 24-byte command buffer.  Bytes 0-5 are
`wPrefix & 0xFF`, `(wPrefix >> 8) & 0xFF`, `bAddress`, `bCmd`, `bEncode` (0),
`bDataLen & 0xFF`; bytes 6-21 the `bData` region; bytes 22-23 are
`checksum & 0xFF` and `(checksum >> 8) & 0xFF` where `checksum` is the sum of
bytes 0-21. -/
def buildFrame (address cmd dataLen : Nat) (bData : List Nat) : List Nat :=
  let body : List Nat :=
    PREFIX_CODE % 256 :: PREFIX_CODE / 256 % 256 :: address :: cmd :: 0 ::
      dataLen % 256 :: bData
  body ++ [body.sum % 256, body.sum / 256 % 256]

/-- Encoding a command with a (≤ 16 byte) payload: `bDataLen` is the payload
length and `bData` the zero-padded payload, as every public API method sets
them before calling `_build_and_send`. -/
def encode (address cmd : Nat) (payload : List Nat) : List Nat :=
  buildFrame address cmd payload.length (padPayload payload)

theorem padPayload_length (p : List Nat) (h : p.length ≤ 16) :
    (padPayload p).length = 16 := by
  simp [padPayload]; omega

theorem encode_eq (address cmd : Nat) (p : List Nat) :
    encode address cmd p =
      0xBB :: 0xAA :: address :: cmd :: 0 :: p.length % 256 :: padPayload p ++
        [(0xBB + (0xAA + (address + (cmd + (0 + (p.length % 256 + (padPayload p).sum)))))) % 256,
         (0xBB + (0xAA + (address + (cmd + (0 + (p.length % 256 + (padPayload p).sum)))))) / 256 % 256] := by
  simp [encode, buildFrame, PREFIX_CODE]

/-- C2: for every command, address and payload of at most 16 bytes the encoder
emits exactly 24 bytes: prefix `0xAABB` little-endian at bytes 0-1, address at
byte 2, command at byte 3, encoding 0 at byte 4, payload length at byte 5, the
payload zero-padded to 16 bytes at bytes 6-21, and bytes 22-23 carrying
`(sum of bytes 0..21) % 65536` little-endian. -/
theorem encode_spec (address cmd : Nat) (p : List Nat)
    (ha : address < 256) (hc : cmd < 256) (hp : ∀ b ∈ p, b < 256)
    (hlen : p.length ≤ 16) :
    (encode address cmd p).length = 24 ∧
    (∀ b ∈ encode address cmd p, b < 256) ∧
    (encode address cmd p).take 6 = [0xBB, 0xAA, address, cmd, 0, p.length] ∧
    ((encode address cmd p).drop 6).take 16 = p ++ List.replicate (16 - p.length) 0 ∧
    (encode address cmd p).getD 22 0 + 256 * (encode address cmd p).getD 23 0 =
      ((encode address cmd p).take 22).sum % 65536 := by
  have hpadlen : (padPayload p).length = 16 := padPayload_length p hlen
  have hplen : p.length % 256 = p.length := Nat.mod_eq_of_lt (by omega)
  rw [encode_eq]
  set S : Nat :=
    0xBB + (0xAA + (address + (cmd + (0 + (p.length % 256 + (padPayload p).sum))))) with hS
  refine ⟨?_, ?_, ?_, ?_, ?_⟩
  · simp [hpadlen]
  · intro b hbmem
    simp only [List.cons_append, List.mem_cons, List.mem_append, List.mem_cons,
      List.not_mem_nil, or_false] at hbmem
    rcases hbmem with h | h | h | h | h | h | h | h | h
    all_goals subst_vars
    · decide
    · decide
    · exact ha
    · exact hc
    · decide
    · omega
    · rcases List.mem_append.mp h with h2 | h2
      · exact hp _ h2
      · have := List.eq_of_mem_replicate h2; omega
    · exact Nat.mod_lt _ (by norm_num)
    · exact Nat.mod_lt _ (by norm_num)
  · simp [List.take, hplen]
  · have hdrop :
        ((0xBB : Nat) :: 0xAA :: address :: cmd :: 0 :: p.length % 256 :: padPayload p ++
          [S % 256, S / 256 % 256]).drop 6 =
        padPayload p ++ [S % 256, S / 256 % 256] := by
      simp [List.drop]
    rw [hdrop, List.take_append_of_le_length (by omega), List.take_of_length_le (by omega)]
    rfl
  · have htake :
        ((0xBB : Nat) :: 0xAA :: address :: cmd :: 0 :: p.length % 256 :: padPayload p ++
          [S % 256, S / 256 % 256]).take 22 =
        0xBB :: 0xAA :: address :: cmd :: 0 :: p.length % 256 :: padPayload p := by
      have h6 : (22 : Nat) = (0xBB :: 0xAA :: address :: cmd :: 0 :: p.length % 256 ::
          padPayload p).length := by simp [hpadlen]
      rw [h6, List.take_left]
    have hgd22 :
        ((0xBB : Nat) :: 0xAA :: address :: cmd :: 0 :: p.length % 256 :: padPayload p ++
          [S % 256, S / 256 % 256]).getD 22 0 = S % 256 := by
      rw [List.getD_append_right _ _ _ _ (by simp [hpadlen])]
      simp [hpadlen]
    have hgd23 :
        ((0xBB : Nat) :: 0xAA :: address :: cmd :: 0 :: p.length % 256 :: padPayload p ++
          [S % 256, S / 256 % 256]).getD 23 0 = S / 256 % 256 := by
      rw [List.getD_append_right _ _ _ _ (by simp [hpadlen])]
      simp [hpadlen]
    rw [hgd22, hgd23, htake]
    have hsum :
        ((0xBB : Nat) :: 0xAA :: address :: cmd :: 0 :: p.length % 256 ::
          padPayload p).sum = S := by
      simp [hS, List.sum_cons]
    rw [hsum]
    have h65536 : (65536 : Nat) = 256 * 256 := by norm_num
    rw [h65536, Nat.mod_mul]

/-- Witness for `encode_spec` at address 0, command `XG_CMD_ENROLL = 0x16`, and
a 6-byte payload. -/
theorem encode_spec_witness :
    (encode 0 0x16 [7, 0, 0, 0, 1, 3]).length = 24 :=
  (encode_spec 0 0x16 [7, 0, 0, 0, 1, 3] (by decide) (by decide) (by decide)
    (by decide)).1

/-! ### Decoder (`FingerVeinSensor._parse_rsp`, lines 103-112) -/

/-- The response-packet fields (`RspPacket`, lines 37-45).  `wMagic` is the
`wPrefix` field of the source. -/
structure RspFields where
  wMagic : Nat
  bAddress : Nat
  bCmd : Nat
  bEncode : Nat
  bDataLen : Nat
  bData : List Nat
  wCheckSum : Nat
deriving DecidableEq

/-- `_parse_rsp` (lines 103-112) over a 24-byte raw response:
`wPrefix = rsp[0] | rsp[1] << 8`, single-byte fields at 2-5, the 16 data bytes
at 6-21, and `wCheckSum = rsp[22] | rsp[23] << 8`. -/
def parseRsp (rsp : List Nat) : RspFields where
  wMagic := rsp.getD 0 0 ||| rsp.getD 1 0 <<< 8
  bAddress := rsp.getD 2 0
  bCmd := rsp.getD 3 0
  bEncode := rsp.getD 4 0
  bDataLen := rsp.getD 5 0
  bData := (rsp.drop 6).take 16
  wCheckSum := carriedChecksum rsp

theorem encode_checksum_carried (address cmd : Nat) (p : List Nat)
    (hlen : p.length ≤ 16) :
    carriedChecksum (encode address cmd p) = recvChecksum (encode address cmd p) := by
  have hpadlen : (padPayload p).length = 16 := padPayload_length p hlen
  rw [encode_eq]
  set S : Nat :=
    0xBB + (0xAA + (address + (cmd + (0 + (p.length % 256 + (padPayload p).sum))))) with hS
  have hgd22 :
      ((0xBB : Nat) :: 0xAA :: address :: cmd :: 0 :: p.length % 256 :: padPayload p ++
        [S % 256, S / 256 % 256]).getD 22 0 = S % 256 := by
    rw [List.getD_append_right _ _ _ _ (by simp [hpadlen])]
    simp [hpadlen]
  have hgd23 :
      ((0xBB : Nat) :: 0xAA :: address :: cmd :: 0 :: p.length % 256 :: padPayload p ++
        [S % 256, S / 256 % 256]).getD 23 0 = S / 256 % 256 := by
    rw [List.getD_append_right _ _ _ _ (by simp [hpadlen])]
    simp [hpadlen]
  have htake :
      ((0xBB : Nat) :: 0xAA :: address :: cmd :: 0 :: p.length % 256 :: padPayload p ++
        [S % 256, S / 256 % 256]).take 22 =
      0xBB :: 0xAA :: address :: cmd :: 0 :: p.length % 256 :: padPayload p := by
    have h6 : (22 : Nat) = (0xBB :: 0xAA :: address :: cmd :: 0 :: p.length % 256 ::
        padPayload p).length := by simp [hpadlen]
    rw [h6, List.take_left]
  rw [carriedChecksum, recvChecksum, hgd22, hgd23, htake,
    lor_shift8 _ _ (Nat.mod_lt _ (by norm_num))]
  have hsum :
      ((0xBB : Nat) :: 0xAA :: address :: cmd :: 0 :: p.length % 256 ::
        padPayload p).sum = S := by
    simp [hS, List.sum_cons]
  rw [hsum]
  have h65536 : (65536 : Nat) = 256 * 256 := by norm_num
  rw [h65536, Nat.mod_mul]

/-- C7: decoding the bytes produced by the encoder reproduces the original
fields exactly — prefix `0xAABB`, address, command, encoding 0, payload
length, the payload zero-padded to 16 bytes — and the carried checksum is the
recomputed one, so the frame is also accepted by the receive path. -/
theorem decode_encode (address cmd : Nat) (p : List Nat)
    (ha : address < 256) (hc : cmd < 256) (hp : ∀ b ∈ p, b < 256)
    (hlen : p.length ≤ 16) :
    parseRsp (encode address cmd p) =
      { wMagic := PREFIX_CODE, bAddress := address, bCmd := cmd, bEncode := 0,
        bDataLen := p.length, bData := p ++ List.replicate (16 - p.length) 0,
        wCheckSum := recvChecksum (encode address cmd p) } ∧
    recvPacket (.frame (encode address cmd p)) = XG_ERR_SUCCESS := by
  have hpadlen : (padPayload p).length = 16 := padPayload_length p hlen
  have hplen : p.length % 256 = p.length := Nat.mod_eq_of_lt (by omega)
  have hcs := encode_checksum_carried address cmd p hlen
  constructor
  · simp only [parseRsp, RspFields.mk.injEq]
    refine ⟨?_, ?_, ?_, ?_, ?_, ?_, hcs⟩
    · rw [encode_eq]
      show (0xBB : Nat) ||| 0xAA <<< 8 = PREFIX_CODE
      decide
    · rw [encode_eq]; rfl
    · rw [encode_eq]; rfl
    · rw [encode_eq]; rfl
    · rw [encode_eq]
      show p.length % 256 = p.length
      exact hplen
    · rw [encode_eq]
      have hdrop :
          ((0xBB : Nat) :: 0xAA :: address :: cmd :: 0 :: p.length % 256 :: padPayload p ++
            [(0xBB + (0xAA + (address + (cmd + (0 + (p.length % 256 + (padPayload p).sum)))))) % 256,
             (0xBB + (0xAA + (address + (cmd + (0 + (p.length % 256 + (padPayload p).sum)))))) / 256 % 256]).drop 6 =
          padPayload p ++
            [(0xBB + (0xAA + (address + (cmd + (0 + (p.length % 256 + (padPayload p).sum)))))) % 256,
             (0xBB + (0xAA + (address + (cmd + (0 + (p.length % 256 + (padPayload p).sum)))))) / 256 % 256] := by
        simp [List.drop]
      rw [hdrop, List.take_append_of_le_length (by omega),
        List.take_of_length_le (by omega)]
      rfl
  · rw [recvPacket, if_pos hcs.symm]

/-- Witness for `decode_encode`: a concrete enroll-shaped frame round-trips. -/
theorem decode_encode_witness :
    parseRsp (encode 0 0x16 [7, 0, 0, 0, 1, 3]) =
      { wMagic := PREFIX_CODE, bAddress := 0, bCmd := 0x16, bEncode := 0,
        bDataLen := [7, 0, 0, 0, 1, 3].length,
        bData := [7, 0, 0, 0, 1, 3] ++ List.replicate (16 - [7, 0, 0, 0, 1, 3].length) 0,
        wCheckSum := recvChecksum (encode 0 0x16 [7, 0, 0, 0, 1, 3]) } :=
  (decode_encode 0 0x16 [7, 0, 0, 0, 1, 3] (by decide) (by decide) (by decide)
    (by decide)).1

/-! ### Enroll handshake (`FingerVeinSensor.enroll_user`, lines 242-273)

Each round trip of the loop is one `_recv_packet` outcome: the transport
return code `ret` and, when `ret = 0`, the parsed reply's `bData[0]` (status)
and `bData[1]` (reason).  A list of such replies models the device's frame
sequence; every consumed list element is one received frame (the first one is
received inside `_build_and_send`, the rest by `_recv_packet(timeout=6)`). -/

structure Reply where
  ret : Nat
  status : Nat
  reason : Nat
deriving DecidableEq

/-- The `while True` loop of `enroll_user` (lines 258-273), returning the
result (`none` when the modelled reply sequence is exhausted while the loop
would still be waiting) together with the number of frames received. -/
def enrollLoop : List Reply → Option Nat × Nat
  | [] => (none, 0)
  | r :: rest =>
    if r.ret ≠ XG_ERR_SUCCESS then (some r.ret, 1)
    else if r.status = XG_ERR_SUCCESS then (some XG_ERR_SUCCESS, 1)
    else if r.status = XG_INPUT_FINGER ∨ r.status = XG_RELEASE_FINGER then
      ((enrollLoop rest).1, (enrollLoop rest).2 + 1)
    else (some r.reason, 1)

def enrollResult (rs : List Reply) : Option Nat := (enrollLoop rs).1

def enrollFrames (rs : List Reply) : Nat := (enrollLoop rs).2

/-- C3: the enroll loop keeps receiving exactly on status `InputFinger`/
`ReleaseFinger`; the first `Success` status is terminal with result 0; the
first other status is terminal with the reason carried in payload byte 1; a
transport-level failure (`ret ≠ 0`: timeout / checksum mismatch / I/O error)
ends the loop with that transport code.  `rest` is universally quantified, so
no particular number of round trips is assumed. -/
theorem enroll_loop_spec (r : Reply) (rest : List Reply) :
    (r.ret ≠ XG_ERR_SUCCESS → enrollLoop (r :: rest) = (some r.ret, 1)) ∧
    (r.ret = XG_ERR_SUCCESS → r.status = XG_ERR_SUCCESS →
      enrollLoop (r :: rest) = (some XG_ERR_SUCCESS, 1)) ∧
    (r.ret = XG_ERR_SUCCESS →
      (r.status = XG_INPUT_FINGER ∨ r.status = XG_RELEASE_FINGER) →
      enrollResult (r :: rest) = enrollResult rest ∧
      enrollFrames (r :: rest) = enrollFrames rest + 1) ∧
    (r.ret = XG_ERR_SUCCESS → r.status ≠ XG_ERR_SUCCESS →
      r.status ≠ XG_INPUT_FINGER → r.status ≠ XG_RELEASE_FINGER →
      enrollLoop (r :: rest) = (some r.reason, 1)) := by
  refine ⟨?_, ?_, ?_, ?_⟩
  · intro h; rw [enrollLoop, if_pos h]
  · intro h hs
    rw [enrollLoop, if_neg (by simp [h]), if_pos hs]
  · intro h hs
    have hs0 : r.status ≠ XG_ERR_SUCCESS := by
      rcases hs with hs | hs <;> rw [hs] <;> decide
    constructor
    · rw [enrollResult, enrollResult, enrollLoop, if_neg (by simp [h]), if_neg hs0,
        if_pos hs]
    · rw [enrollFrames, enrollFrames, enrollLoop, if_neg (by simp [h]), if_neg hs0,
        if_pos hs]
  · intro h hs0 hs1 hs2
    rw [enrollLoop, if_neg (by simp [h]), if_neg hs0, if_neg (by simp [hs1, hs2])]

/-- Witness for `enroll_loop_spec`: a transport timeout on the first receive
ends the loop with the timeout code. -/
theorem enroll_loop_spec_witness :
    enrollLoop [⟨XG_ERR_TIME_OUT, 0, 0⟩] = (some XG_ERR_TIME_OUT, 1) :=
  (enroll_loop_spec ⟨XG_ERR_TIME_OUT, 0, 0⟩ []).1 (by decide)

/-- The C8 stub device: `n` `InputFinger`/`ReleaseFinger` pairs followed by a
`Success` reply, all delivered with transport code 0. -/
def pairThenSuccess : Nat → List Reply
  | 0 => [⟨XG_ERR_SUCCESS, XG_ERR_SUCCESS, 0⟩]
  | n + 1 =>
    ⟨XG_ERR_SUCCESS, XG_INPUT_FINGER, 0⟩ :: ⟨XG_ERR_SUCCESS, XG_RELEASE_FINGER, 0⟩ ::
      pairThenSuccess n

/-- C8 counterexample: with `N = 2` Input/Release pairs before `Success`,
enroll receives 5 frames, not `N + 1 = 3`. -/
theorem enroll_pairs_counterexample :
    enrollResult (pairThenSuccess 2) = some XG_ERR_SUCCESS ∧
    enrollFrames (pairThenSuccess 2) = 5 ∧ (5 : Nat) ≠ 2 + 1 := by
  decide

/-- C8 amended: a device emitting `n` `InputFinger`/`ReleaseFinger` pairs and
then `Success` makes enroll return success after exactly `2n + 1` received
frames. -/
theorem enroll_pairs (n : Nat) :
    enrollLoop (pairThenSuccess n) = (some XG_ERR_SUCCESS, 2 * n + 1) := by
  induction n with
  | zero => decide
  | succ k ih =>
    have h1 :
        enrollLoop (pairThenSuccess (k + 1)) =
          ((enrollLoop (pairThenSuccess k)).1, (enrollLoop (pairThenSuccess k)).2 + 1 + 1) := by
      rw [pairThenSuccess]
      rw [enrollLoop, if_neg (by decide), if_neg (by decide), if_pos (by decide)]
      rw [enrollLoop, if_neg (by decide), if_neg (by decide), if_pos (by decide)]
    have h2 : 2 * (k + 1) + 1 = 2 * k + 1 + 1 + 1 := by omega
    rw [h1, ih, h2]

/-- C10: a terminal device reply whose status is none of `Success`,
`InputFinger`, `ReleaseFinger` but whose reason byte is 0 makes `enroll_user`
return 0 — the same value a successful enrollment returns, so the two are
indistinguishable at enroll's public interface. -/
theorem enroll_zero_reason (s : Nat) (rest ok : List Reply)
    (h0 : s ≠ XG_ERR_SUCCESS) (h1 : s ≠ XG_INPUT_FINGER)
    (h2 : s ≠ XG_RELEASE_FINGER) :
    enrollResult (⟨XG_ERR_SUCCESS, s, 0⟩ :: rest) = some 0 ∧
    enrollResult (⟨XG_ERR_SUCCESS, XG_ERR_SUCCESS, 0⟩ :: ok) = some 0 := by
  constructor
  · rw [enrollResult, enrollLoop, if_neg (by simp), if_neg h0,
      if_neg (by simp [h1, h2])]
  · rw [enrollResult, enrollLoop, if_neg (by simp), if_pos rfl]; rfl

/-- Witness for `enroll_zero_reason`: status `XG_ERR_NO_VEIN` with reason 0 is
reported as 0, exactly like a success. -/
theorem enroll_zero_reason_witness :
    enrollResult [⟨XG_ERR_SUCCESS, XG_ERR_NO_VEIN, 0⟩] = some 0 :=
  (enroll_zero_reason XG_ERR_NO_VEIN [] [] (by decide) (by decide) (by decide)).1

/-! ### Identify handshake (`FingerVeinSensor.verify_and_get_id`, lines
199-240) and the no-match classifier
(`FingerCodeReader._is_no_match_error`, Finger_code_reader.py lines 81-87) -/

/-- Terminal outcome of the `while True` loop of `verify_and_get_id`:
a match (status 0, returns the id), a raised
`RuntimeError(f"Verify failed, status=..., reason=...")` for any other
terminal status, or a raised `RuntimeError(f"Verify comm error ...")` when the
transport fails. -/
inductive VOutcome where
  | matched
  | verifyFailed (status reason : Nat)
  | commError (ret : Nat)
deriving DecidableEq

/-- The receive loop of `verify_and_get_id` (lines 221-240): `InputFinger` and
`ReleaseFinger` keep waiting; status 0 is a match; any other status raises with
that status and the reason byte; `ret ≠ 0` raises a comm error. -/
def verifyLoop : List Reply → Option VOutcome
  | [] => none
  | r :: rest =>
    if r.ret ≠ XG_ERR_SUCCESS then some (.commError r.ret)
    else if r.status = XG_ERR_SUCCESS then some .matched
    else if r.status = XG_INPUT_FINGER ∨ r.status = XG_RELEASE_FINGER then
      verifyLoop rest
    else some (.verifyFailed r.status r.reason)

/-- The message of the `RuntimeError` raised at fingerprint_sensor.py line 235:
`f"Verify failed, status={status}, reason={reason}"` with decimal rendering. -/
def verifyFailMsg (status reason : Nat) : String :=
  "Verify failed, status=" ++ toString status ++ ", reason=" ++ toString reason

/-- `pat` matches the beginning of the second list. -/
def headMatches : List Char → List Char → Bool
  | [], _ => true
  | _ :: _, [] => false
  | a :: as, b :: bs => a == b && headMatches as bs

/-- Python's substring operator `pat in s`, on the character lists. -/
def containsSeq : List Char → List Char → Bool
  | pat, [] => headMatches pat []
  | pat, c :: rest => headMatches pat (c :: rest) || containsSeq pat rest

/-- `FingerCodeReader._is_no_match_error` (Finger_code_reader.py lines 81-87):
Python substring tests `"status=1" in msg and "reason=12" in msg`. -/
def isNoMatchError (msg : String) : Bool :=
  containsSeq "status=1".toList msg.toList && containsSeq "reason=12".toList msg.toList

/-- How `scan_code_until_correct` (Finger_code_reader.py lines 110-122)
classifies a terminal verify failure: `true` means "no match, scan again",
`false` means the exception is re-raised as fatal. -/
def classifyVerifyFailure (status reason : Nat) : Bool :=
  isNoMatchError (verifyFailMsg status reason)

/-- C4: status 1 with reason 12 is classified as the no-match outcome — but so
is status `0x11` (`XG_ERR_NO_VEIN`, decimal 17) with reason 12, because the
classifier tests `"status=1"` as a substring and `"status=17"` contains it.
A caller therefore cannot distinguish that other non-zero status/reason
combination from the genuine no-match pairing, although the classifier's own
doc comment says it detects exactly `status=1, reason=12`. -/
theorem verify_no_match_conflated :
    verifyLoop [⟨XG_ERR_SUCCESS, 1, 12⟩] = some (.verifyFailed 1 12) ∧
    classifyVerifyFailure 1 12 = true ∧
    verifyLoop [⟨XG_ERR_SUCCESS, XG_ERR_NO_VEIN, 12⟩] =
      some (.verifyFailed XG_ERR_NO_VEIN 12) ∧
    (XG_ERR_NO_VEIN, 12) ≠ ((1 : Nat), (12 : Nat)) ∧
    classifyVerifyFailure XG_ERR_NO_VEIN 12 = true := by
  refine ⟨by decide, ?_, by decide, by decide, ?_⟩ <;> decide

/-! ### Poller debounce (`FingerWorker.run`, Main_main.py lines 492-514)

The worker keeps `last_reported_fid` (initially -1) and
`last_detection_time` (initially 0); on a successful identify returning
`fid >= 0` it pushes a `("finger_ok", fid)` event exactly when
`fid != last_reported_fid or (now - last_detection_time) > 2.0`, updating both
fields when it does.  Time is modelled as a rational. -/

structure FWState where
  lastFid : Int
  lastTime : ℚ
deriving DecidableEq

/-- One successful identify observation handled by `FingerWorker.run`:
the new worker state and whether a `FingerEvent` was delivered to the queue. -/
def fwStep (s : FWState) (fid : Int) (now : ℚ) : FWState × Bool :=
  if 0 ≤ fid then
    if fid ≠ s.lastFid ∨ 2 < now - s.lastTime then (⟨fid, now⟩, true)
    else (s, false)
  else (s, false)

/-- C6: after a delivered observation of `fid` at time `t1`, observing the same
`fid` again at `t2` delivers a second event exactly when the 2-second cooldown
has elapsed (`2 < t2 - t1`), i.e. within the window exactly one event is
delivered; observing a different (valid) id is delivered regardless of the
cooldown. -/
theorem fw_debounce (s0 : FWState) (fid fid2 : Int) (t1 t2 : ℚ)
    (hf : 0 ≤ fid) (h1 : (fwStep s0 fid t1).2 = true) :
    ((fwStep (fwStep s0 fid t1).1 fid t2).2 = true ↔ 2 < t2 - t1) ∧
    (0 ≤ fid2 → fid2 ≠ fid → (fwStep (fwStep s0 fid t1).1 fid2 t2).2 = true) := by
  have hstate : (fwStep s0 fid t1).1 = ⟨fid, t1⟩ := by
    rw [fwStep] at h1 ⊢
    rw [if_pos hf] at h1 ⊢
    by_cases hc : fid ≠ s0.lastFid ∨ 2 < t1 - s0.lastTime
    · rw [if_pos hc]
    · rw [if_neg hc] at h1
      exact absurd h1 (by simp)
  rw [hstate]
  constructor
  · rw [fwStep, if_pos hf]
    constructor
    · intro h
      by_cases hc : fid ≠ (⟨fid, t1⟩ : FWState).lastFid ∨ 2 < t2 - (⟨fid, t1⟩ : FWState).lastTime
      · rcases hc with hc | hc
        · exact absurd rfl hc
        · exact hc
      · rw [if_neg hc] at h
        exact absurd h (by simp)
    · intro h
      rw [if_pos (Or.inr h)]
  · intro h2 hne
    rw [fwStep, if_pos h2, if_pos (Or.inl hne)]

/-- Witness for `fw_debounce`: first observation of id 7 at t = 10 delivered
from the initial state; re-observing id 7 at t = 11 is suppressed, at t = 13
it is delivered again. -/
theorem fw_debounce_witness :
    (0 : Int) ≤ 7 ∧
    (fwStep (fwStep ⟨-1, 0⟩ 7 10).1 7 11).2 = false ∧
    (fwStep (fwStep ⟨-1, 0⟩ 7 10).1 7 13).2 = true := by
  have hf : (0 : Int) ≤ 7 := by norm_num
  have h1 : (fwStep ⟨-1, 0⟩ 7 10).2 = true := by norm_num [fwStep]
  refine ⟨hf, ?_, ?_⟩
  · have h := (fw_debounce ⟨-1, 0⟩ 7 0 10 11 hf h1).1
    have hnot : ¬ (2 < (11 : ℚ) - 10) := by norm_num
    exact Bool.eq_false_iff.mpr fun ht => hnot (h.mp ht)
  · exact (fw_debounce ⟨-1, 0⟩ 7 0 10 13 hf h1).1.mpr (by norm_num)

/-! ### Lock discipline of the sensor users

Each cited code path is transcribed as its sequence of lock and sensor
actions:

* `Main_main.py FingerWorker.run`, lines 492-514: `lock.acquire(timeout=0.2)`;
  on success one `verify_and_get_id` call; `lock.release()` in the `finally`
  block.  (On acquisition failure the iteration performs no sensor call.)
* `Final_Code.py FingerWorker.run`, lines 305-311: one `verify_and_get_id`
  call, no lock anywhere in that file.
* `Final_Code.py enroll_for_user`, lines 245-280 (reached from the foreground
  `handle_finger` → `enrollment_flow` while the worker thread keeps running):
  `get_empty_id` then `enroll_user`, again with no lock. -/

inductive SAction where
  | acq (timeoutSec : Option ℚ)
  | rel
  | sensorOp (name : String)
deriving DecidableEq

/-- Main_main.py poller iteration that obtained the lock. -/
def mainPollerIter : List SAction :=
  [.acq (some (1 / 5)), .sensorOp "verify_and_get_id", .rel]

/-- Final_Code.py poller iteration. -/
def finalPollerIter : List SAction :=
  [.sensorOp "verify_and_get_id"]

/-- Final_Code.py foreground enrollment sensor calls. -/
def finalEnrollIter : List SAction :=
  [.sensorOp "get_empty_id", .sensorOp "enroll_user"]

/-- Every sensor call in the trace happens while the mutual-exclusion lock is
held (tracking the held flag through acquires and releases). -/
def lockGuarded : Bool → List SAction → Bool
  | _, [] => true
  | _, .acq _ :: rest => lockGuarded true rest
  | _, .rel :: rest => lockGuarded false rest
  | held, .sensorOp _ :: rest => held && lockGuarded held rest

def underLock (tr : List SAction) : Bool := lockGuarded false tr

/-- C5 counterexample: the foreground enrollment path of Final_Code.py
(`get_empty_id` / `enroll_user`) performs its sensor calls under no lock at
all, refuting "every Sensor Client operation executes under the single shared
mutual-exclusion lock". -/
theorem sensor_lock_counterexample :
    underLock finalEnrollIter = false ∧ finalEnrollIter.all
      (fun a => match a with | .acq _ => false | _ => true) = true := by
  decide

/-- C5 amended: in Main_main.py the poller's identify call runs under the
shared lock, acquired with the bounded timeout 0.2 s and released afterwards;
but in Final_Code.py neither the poller's identify nor the foreground
enrollment/get-empty-id takes any lock, so there two sensor calls can be in
flight concurrently. -/
theorem sensor_lock_amended :
    underLock mainPollerIter = true ∧
    mainPollerIter.head? = some (.acq (some (1 / 5))) ∧
    (1 / 5 : ℚ) = 2 / 10 ∧
    underLock finalPollerIter = false ∧
    underLock finalEnrollIter = false := by
  refine ⟨by decide, rfl, by norm_num, by decide, by decide⟩

/-! ### Kiosk state machine: code submission (`App.run` "enter" branch,
Main_main.py lines 827-835, and `App.handle_code_submit`, lines 743-784)

`enter_idle` (lines 673-677) sets `state = "IDLE"` and `buf = ""`.  The
external collaborators are `code_to_name` (CSV lookup, `lookup`) and
`get_user_status` (IN/OUT persistence, `statusOf`); display and log calls are
recorded as abstract effects (clock-time strings elided). -/

inductive KState where
  | idle
  | entering
deriving DecidableEq

structure AppSt where
  state : KState
  buf : String
deriving DecidableEq

inductive Effect where
  | showInvalidLength
  | showDenied
  | logAttendance (name code method action : String)
  | updateStatus (code action : String)
  | showClockMsg (name code action : String)
deriving DecidableEq

/-- `App.handle_code_submit` (lines 743-784): unknown code logs a DENIED
attendance record and shows "DENIED"; a known code logs an attendance record
with the toggled IN/OUT action, updates the status store, and shows the
welcome/goodbye screen; both paths end in `enter_idle`. -/
def handleCodeSubmit (lookup : String → Option String) (statusOf : String → String)
    (code : String) : AppSt × List Effect :=
  match lookup code with
  | none =>
    (⟨.idle, ""⟩, [.logAttendance "UNKNOWN" code "code" "DENIED", .showDenied])
  | some name =>
    let action := if statusOf code = "IN" then "OUT" else "IN"
    (⟨.idle, ""⟩,
      [.logAttendance name code "code" action, .updateStatus code action,
       .showClockMsg name code action])

/-- The `elif ev == "enter"` branch of `App.run` (lines 827-835): in the
ENTERING state, a buffer of length ≠ 5 shows the invalid-length screen and
returns to idle; a 5-digit buffer is submitted via `handle_code_submit`. -/
def handleEnter (lookup : String → Option String) (statusOf : String → String)
    (s : AppSt) : AppSt × List Effect :=
  if s.state = .entering then
    if s.buf.length ≠ 5 then (⟨.idle, ""⟩, [.showInvalidLength])
    else handleCodeSubmit lookup statusOf s.buf
  else (s, [])

/-- C9: in the EnteringCode state, submit with buffer length ≠ 5 shows the
invalid-length feedback and returns to Idle with the buffer cleared; submit
with buffer length 5 resolves the buffer through the external lookup, emits an
attendance record for it, and returns to Idle with the buffer cleared. -/
theorem code_submit_spec (lookup : String → Option String)
    (statusOf : String → String) (s : AppSt) (h : s.state = .entering) :
    (s.buf.length ≠ 5 →
      handleEnter lookup statusOf s = (⟨.idle, ""⟩, [.showInvalidLength])) ∧
    (s.buf.length = 5 →
      (handleEnter lookup statusOf s).1 = ⟨.idle, ""⟩ ∧
      ∃ name action,
        Effect.logAttendance name s.buf "code" action ∈
          (handleEnter lookup statusOf s).2 ∧
        ((lookup s.buf = some name ∧
            action = (if statusOf s.buf = "IN" then "OUT" else "IN")) ∨
          (lookup s.buf = none ∧ name = "UNKNOWN" ∧ action = "DENIED"))) := by
  constructor
  · intro h5
    rw [handleEnter, if_pos h, if_pos h5]
  · intro h5
    rw [handleEnter, if_pos h, if_neg (by omega)]
    rcases hl : lookup s.buf with _ | name
    · rw [handleCodeSubmit, hl]
      exact ⟨rfl, "UNKNOWN", "DENIED", by simp, Or.inr ⟨rfl, rfl, rfl⟩⟩
    · rw [handleCodeSubmit, hl]
      exact ⟨rfl, name, if statusOf s.buf = "IN" then "OUT" else "IN", by simp,
        Or.inl ⟨rfl, rfl⟩⟩

/-- Witness for `code_submit_spec`: a 4-digit buffer is rejected with the
invalid-length feedback, the kiosk back in idle with a cleared buffer. -/
theorem code_submit_spec_witness :
    handleEnter (fun c => if c = "12345" then some "Alice" else none)
        (fun _ => "OUT") ⟨.entering, "1234"⟩ =
      (⟨.idle, ""⟩, [.showInvalidLength]) :=
  (code_submit_spec (fun c => if c = "12345" then some "Alice" else none)
    (fun _ => "OUT") ⟨.entering, "1234"⟩ rfl).1 (by decide)

end Checkin
